import Mathlib

/-!
Shallow embedding of the LGMP client session layer (`src/client/lgmp_comm.rs`
and `src/error.rs` of lookinggla-rs).

Modelling conventions:
* `Instant` timestamps are `Int`; `Duration` values are `Nat` (cast to `Int`
  where the source adds or subtracts them).  Each operation receives the
  current wall-clock time `now` as an explicit argument; the source's repeated
  `Instant::now()` calls inside one operation are identified with that single
  `now`.
* The external queue primitive (the `ligmars` crate) is a capability record
  `QueuePrim` mapping a channel-handle state to the response and new state of
  `pop_in_place` / `advance_to_last`.  Channel-handle state is an arbitrary
  type `Chan`.
* Methods taking `&mut self` become functions returning a pair of the
  `Result` value and the post-state, so post-states on error paths are
  explicit.
-/

namespace Lgmp

/-- Status codes of the external `ligmars` queue primitive.  Only
`LGMPErrQueueEmpty` is inspected by this crate; all other codes are opaque. -/
inductive Status where
  | LGMPErrQueueEmpty : Status
  | otherStatus (code : Nat) : Status
deriving DecidableEq, Repr

/-- Errors of the external `ligmars` queue primitive (`ligmars::error::Error`).
The crate pattern-matches only `InternalError(Status)`; other variants are
opaque. -/
inductive LigError where
  | InternalError (s : Status) : LigError
  | otherVariant (code : Nat) : LigError
deriving DecidableEq, Repr

/-- The error taxonomy of `src/error.rs` (`enum LGError`).  Payloads of the
wrapped external errors are carried; the SHM error payload is opaque. -/
inductive LGError where
  | LGMPCommunicationError (e : LigError) : LGError
  | SHMDeviceError (code : Nat) : LGError
  | LGMPClientLockPoisonError : LGError
  | KVMFRVersionMismatch (v : Nat) : LGError
  | FrameChannelMessageTooSmall : LGError
  | CursorChannelMessageTooSmall : LGError
deriving DecidableEq, Repr

/-- A poisoned-mutex error from the standard library; its contents are never
inspected by the conversion in `src/error.rs`. -/
structure PoisonError where
  dummy : Unit
deriving DecidableEq, Repr

/-- Embeds `impl<T> From<PoisonError<T>> for LGError` in `src/error.rs`: every
poison error converts to `LGMPClientLockPoisonError`, ignoring its payload. -/
def LGError.fromPoison (_ : PoisonError) : LGError :=
  LGError.LGMPClientLockPoisonError

/-- The memory view held by a popped message (`ligmars` `InPlaceMessage.mem`):
a size in bytes and the (abstract) address of the bytes. -/
structure MsgMem where
  size : Nat
  mem : Nat
deriving DecidableEq, Repr

/-- A popped in-place message reference (`ligmars::client::InPlaceMessage`). -/
structure InPlaceMessage where
  mem : MsgMem
deriving DecidableEq, Repr

/-- The external queue-client capability per channel handle: `pop_in_place`
returns a message and the advanced handle state, `advance_to_last` returns the
advanced handle state; either may fail with a `ligmars` error (in particular
`InternalError LGMPErrQueueEmpty`), in which case the handle state is
unchanged. -/
structure QueuePrim (Chan : Type) where
  pop_in_place : Chan → Except LigError (InPlaceMessage × Chan)
  advance_to_last : Chan → Except LigError Chan

/-- Selector for the channels subscribed to by the LGMP client
(`enum KVMFRChans`). -/
inductive KVMFRChans where
  | Frame : KVMFRChans
  | Cursor : KVMFRChans
deriving DecidableEq, Repr

/-- Client configuration (`struct LGMPOpts`): shared-memory path and timeout
duration. -/
structure LGMPOpts where
  shm_path : String
  timeout : Nat
deriving DecidableEq, Repr

/-- Embeds `struct LGMPSession`: the two channel subscription handles and, per
channel, the time it last received an `LGMPErrQueueEmpty` response. -/
structure LGMPSession (Chan : Type) where
  frame_chan : Chan
  cursor_chan : Chan
  last_frame_heartbeat : Int
  last_cursor_heartbeat : Int
deriving DecidableEq, Repr

/-- Embeds `struct LGMPConnection`: the optional session and the options.  The
`Arc<Mutex<Client>>` field holds no state visible to this layer beyond what
the `InitEnv` oracle reports, so it is not carried. -/
structure LGMPConnection (Chan : Type) where
  session : Option (LGMPSession Chan)
  opts : LGMPOpts
deriving DecidableEq, Repr

/-- Modelled from the spec: the expected constant magic byte sequence of the
compatibility header (`shm_datastructs::KVMFR_MAGIC`, generated bindings not
present in the source).  The concrete bytes are a placeholder; no claim
depends on the value. -/
def KVMFR_MAGIC : List Nat := [75, 86, 77, 70, 82]

/-- Modelled from the spec: the length of the magic field of the
compatibility header. -/
def kvmfrMagicLen : Nat := KVMFR_MAGIC.length

/-- Modelled from the spec: the expected protocol version
(`shm_datastructs::KVMFR_VERSION`).  The concrete value is a placeholder; no
claim depends on it. -/
def KVMFR_VERSION : Nat := 20

/-- Little-endian unsigned 32-bit decode of a 4-byte list (anything else
decodes to 0; callers only use it after the exact-length check). -/
def leU32 : List Nat → Nat
  | [b0, b1, b2, b3] =>
      b0 % 256 + 256 * (b1 % 256) + 65536 * (b2 % 256) + 16777216 * (b3 % 256)
  | _ => 0

/-- Modelled from the spec: `size_of::<KVMFR>()`, the exact expected byte
length of the compatibility header — magic bytes followed by an unsigned
32-bit version. -/
def sizeOfKVMFR : Nat := kvmfrMagicLen + 4

/-- Modelled from the spec: the magic field read from the registration
metadata bytes (the reinterpretation `udata.magic` performs). -/
def kvmfrMagicOf (bytes : List Nat) : List Nat := bytes.take kvmfrMagicLen

/-- Modelled from the spec: the version field read from the registration
metadata bytes (the reinterpretation `udata.version` performs). -/
def kvmfrVersionOf (bytes : List Nat) : Nat :=
  leU32 ((bytes.drop kvmfrMagicLen).take 4)

/-- Modelled from the spec: `size_of::<KVMFRFrame>()` (generated bindings not
in the source).  Placeholder value; no claim depends on it. -/
def sizeOfKVMFRFrame : Nat := 64

/-- Modelled from the spec: `size_of::<KVMFRCursor>()` (generated bindings
not in the source).  Placeholder value; no claim depends on it. -/
def sizeOfKVMFRCursor : Nat := 32

/-- Embeds `struct KVMFRFrameHandle`: wraps a popped frame-channel message. -/
structure KVMFRFrameHandle where
  _msg_handle : InPlaceMessage
deriving DecidableEq, Repr

/-- Embeds `struct KVMFRCursorHandle`: wraps a popped cursor-channel message. -/
structure KVMFRCursorHandle where
  _msg_handle : InPlaceMessage
deriving DecidableEq, Repr

/-- Embeds `KVMFRFrameHandle::as_frame`: checks the message size against the
expected frame structure size, then (and only then) returns the reinterpreted
view — modelled as the address of the bytes being viewed. -/
def KVMFRFrameHandle.as_frame (h : KVMFRFrameHandle) : Except LGError Nat :=
  if h._msg_handle.mem.size < sizeOfKVMFRFrame then
    Except.error LGError.FrameChannelMessageTooSmall
  else
    Except.ok h._msg_handle.mem.mem

/-- Embeds `KVMFRCursorHandle::as_ptr_msg`: checks the message size against the
expected cursor structure size, then (and only then) returns the
reinterpreted view — modelled as the address of the bytes being viewed. -/
def KVMFRCursorHandle.as_ptr_msg (h : KVMFRCursorHandle) : Except LGError Nat :=
  if h._msg_handle.mem.size < sizeOfKVMFRCursor then
    Except.error LGError.CursorChannelMessageTooSmall
  else
    Except.ok h._msg_handle.mem.mem

/-- Embeds `LGMPSession::pop_ref`: pops the next message from the selected channel.
`Ok(msg)` becomes `some`; `InternalError(LGMPErrQueueEmpty)` is filtered into
a heartbeat refresh and `none`; any other primitive error propagates wrapped
as `LGMPCommunicationError`. -/
def LGMPSession.pop_ref {Chan : Type} (prim : QueuePrim Chan)
    (sess : LGMPSession Chan) (channel : KVMFRChans) (now : Int) :
    Except LGError (Option InPlaceMessage) × LGMPSession Chan :=
  match channel with
  | KVMFRChans.Frame =>
      match prim.pop_in_place sess.frame_chan with
      | Except.ok (m, c) =>
          (Except.ok (some m), { sess with frame_chan := c })
      | Except.error (LigError.InternalError Status.LGMPErrQueueEmpty) =>
          (Except.ok none, { sess with last_frame_heartbeat := now })
      | Except.error e =>
          (Except.error (LGError.LGMPCommunicationError e), sess)
  | KVMFRChans.Cursor =>
      match prim.pop_in_place sess.cursor_chan with
      | Except.ok (m, c) =>
          (Except.ok (some m), { sess with cursor_chan := c })
      | Except.error (LigError.InternalError Status.LGMPErrQueueEmpty) =>
          (Except.ok none, { sess with last_cursor_heartbeat := now })
      | Except.error e =>
          (Except.error (LGError.LGMPCommunicationError e), sess)

/-- Embeds `LGMPSession::fast_forward`: advances the selected channel to the newest
message.  `InternalError(LGMPErrQueueEmpty)` is treated as success with a
heartbeat refresh; any other primitive error propagates wrapped as
`LGMPCommunicationError`. -/
def LGMPSession.fast_forward {Chan : Type} (prim : QueuePrim Chan)
    (sess : LGMPSession Chan) (channel : KVMFRChans) (now : Int) :
    Except LGError Unit × LGMPSession Chan :=
  match channel with
  | KVMFRChans.Frame =>
      match prim.advance_to_last sess.frame_chan with
      | Except.ok c => (Except.ok (), { sess with frame_chan := c })
      | Except.error (LigError.InternalError Status.LGMPErrQueueEmpty) =>
          (Except.ok (), { sess with last_frame_heartbeat := now })
      | Except.error e =>
          (Except.error (LGError.LGMPCommunicationError e), sess)
  | KVMFRChans.Cursor =>
      match prim.advance_to_last sess.cursor_chan with
      | Except.ok c => (Except.ok (), { sess with cursor_chan := c })
      | Except.error (LigError.InternalError Status.LGMPErrQueueEmpty) =>
          (Except.ok (), { sess with last_cursor_heartbeat := now })
      | Except.error e =>
          (Except.error (LGError.LGMPCommunicationError e), sess)

/-- The external interactions of `LGMPConnection::init`: whether the client
mutex is poisoned, the result of `client_session_init` (registration metadata
bytes and client id), and the results of the two `client_subscribe` calls. -/
structure InitEnv (Chan : Type) where
  lockPoisoned : Bool
  client_session_init : Except LigError (List Nat × Nat)
  subscribe_frame : Except LigError Chan
  subscribe_cursor : Except LigError Chan

/-- Embeds `LGMPConnection::init`: locks the client (poison surfaces as
`LGMPClientLockPoisonError`), registers with the host, validates the
compatibility header (exact length, magic prefix, version), subscribes to the
frame and cursor channels, and installs a session whose heartbeats are both
`now - timeout`. -/
def LGMPConnection.init {Chan : Type} (env : InitEnv Chan)
    (conn : LGMPConnection Chan) (now : Int) :
    Except LGError Unit × LGMPConnection Chan :=
  if env.lockPoisoned then
    (Except.error LGError.LGMPClientLockPoisonError, conn)
  else
    match env.client_session_init with
    | Except.error e =>
        (Except.error (LGError.LGMPCommunicationError e), conn)
    | Except.ok (udata_raw, _client_id) =>
        if udata_raw.length ≠ sizeOfKVMFR then
          (Except.error (LGError.KVMFRVersionMismatch KVMFR_VERSION), conn)
        else if kvmfrMagicOf udata_raw ≠ KVMFR_MAGIC.take kvmfrMagicLen ∨
            kvmfrVersionOf udata_raw ≠ KVMFR_VERSION then
          (Except.error (LGError.KVMFRVersionMismatch KVMFR_VERSION), conn)
        else
          match env.subscribe_frame with
          | Except.error e =>
              (Except.error (LGError.LGMPCommunicationError e), conn)
          | Except.ok frame_chan =>
              match env.subscribe_cursor with
              | Except.error e =>
                  (Except.error (LGError.LGMPCommunicationError e), conn)
              | Except.ok cursor_chan =>
                  (Except.ok (),
                   { conn with
                     session := some
                       { frame_chan := frame_chan
                         cursor_chan := cursor_chan
                         last_frame_heartbeat := now - (conn.opts.timeout : Int)
                         last_cursor_heartbeat := now - (conn.opts.timeout : Int) } })

/-- Embeds `LGMPConnection::tick_frame`: does nothing without a session; otherwise,
if `now + tick_period` exceeds `last_frame_heartbeat + timeout`, fast-forwards
the frame channel and, on success, resets the frame heartbeat to `now`. -/
def LGMPConnection.tick_frame {Chan : Type} (prim : QueuePrim Chan)
    (conn : LGMPConnection Chan) (tick_period : Nat) (now : Int) :
    Except LGError Unit × LGMPConnection Chan :=
  match conn.session with
  | none => (Except.ok (), conn)
  | some sess =>
      if now + (tick_period : Int) >
          sess.last_frame_heartbeat + (conn.opts.timeout : Int) then
        match sess.fast_forward prim KVMFRChans.Frame now with
        | (Except.ok _, s) =>
            (Except.ok (),
             { conn with session := some { s with last_frame_heartbeat := now } })
        | (Except.error e, s) =>
            (Except.error e, { conn with session := some s })
      else
        (Except.ok (), conn)

/-- Embeds `LGMPConnection::tick_cursor`: the cursor-channel analogue of
`tick_frame`. -/
def LGMPConnection.tick_cursor {Chan : Type} (prim : QueuePrim Chan)
    (conn : LGMPConnection Chan) (tick_period : Nat) (now : Int) :
    Except LGError Unit × LGMPConnection Chan :=
  match conn.session with
  | none => (Except.ok (), conn)
  | some sess =>
      if now + (tick_period : Int) >
          sess.last_cursor_heartbeat + (conn.opts.timeout : Int) then
        match sess.fast_forward prim KVMFRChans.Cursor now with
        | (Except.ok _, s) =>
            (Except.ok (),
             { conn with session := some { s with last_cursor_heartbeat := now } })
        | (Except.error e, s) =>
            (Except.error e, { conn with session := some s })
      else
        (Except.ok (), conn)

/-- Embeds `LGMPConnection::get_frame_update`: pops from the frame channel through
`pop_ref` and wraps a popped message in a `KVMFRFrameHandle`; returns `none`
without touching anything when no session exists. -/
def LGMPConnection.get_frame_update {Chan : Type} (prim : QueuePrim Chan)
    (conn : LGMPConnection Chan) (now : Int) :
    Except LGError (Option KVMFRFrameHandle) × LGMPConnection Chan :=
  match conn.session with
  | none => (Except.ok none, conn)
  | some sess =>
      match sess.pop_ref prim KVMFRChans.Frame now with
      | (Except.ok msg, s) =>
          (Except.ok (msg.map fun m => { _msg_handle := m }),
           { conn with session := some s })
      | (Except.error e, s) =>
          (Except.error e, { conn with session := some s })

/-- Embeds `LGMPConnection::get_cursor_update`: the cursor-channel analogue of
`get_frame_update`. -/
def LGMPConnection.get_cursor_update {Chan : Type} (prim : QueuePrim Chan)
    (conn : LGMPConnection Chan) (now : Int) :
    Except LGError (Option KVMFRCursorHandle) × LGMPConnection Chan :=
  match conn.session with
  | none => (Except.ok none, conn)
  | some sess =>
      match sess.pop_ref prim KVMFRChans.Cursor now with
      | (Except.ok msg, s) =>
          (Except.ok (msg.map fun m => { _msg_handle := m }),
           { conn with session := some s })
      | (Except.error e, s) =>
          (Except.error e, { conn with session := some s })

/-! Concrete fixtures used by the evaluation witnesses. -/

/-- A primitive whose channels always report `LGMPErrQueueEmpty`. -/
def emptyPrim : QueuePrim Nat where
  pop_in_place := fun _ =>
    Except.error (LigError.InternalError Status.LGMPErrQueueEmpty)
  advance_to_last := fun _ =>
    Except.error (LigError.InternalError Status.LGMPErrQueueEmpty)

/-- A primitive that always pops a fixed message and advances the handle. -/
def msgPrim : QueuePrim Nat where
  pop_in_place := fun c =>
    Except.ok ({ mem := { size := 100, mem := 7 } }, c + 10)
  advance_to_last := fun c => Except.ok (c + 10)

/-- A primitive that always fails with an error other than queue-empty. -/
def failPrim : QueuePrim Nat where
  pop_in_place := fun _ => Except.error (LigError.otherVariant 3)
  advance_to_last := fun _ => Except.error (LigError.otherVariant 3)

/-- Sample options: one-second timeout. -/
def sampleOpts : LGMPOpts where
  shm_path := "looking-glass"
  timeout := 1000

/-- Sample session with both heartbeats at time 2000. -/
def sampleSession : LGMPSession Nat where
  frame_chan := 0
  cursor_chan := 1
  last_frame_heartbeat := 2000
  last_cursor_heartbeat := 2000

/-- Sample connection holding `sampleSession`. -/
def sampleConn : LGMPConnection Nat where
  session := some sampleSession
  opts := sampleOpts

/-- Sample connection with no session. -/
def noSessionConn : LGMPConnection Nat where
  session := none
  opts := sampleOpts

/-- Registration metadata that passes every compatibility check. -/
def goodMeta : List Nat := KVMFR_MAGIC ++ [20, 0, 0, 0]

/-- An init environment returning well-formed registration metadata. -/
def goodMetaEnv : InitEnv Nat where
  lockPoisoned := false
  client_session_init := Except.ok (goodMeta, 5)
  subscribe_frame := Except.ok 0
  subscribe_cursor := Except.ok 1

/-- An init environment returning too-short registration metadata. -/
def badMetaEnv : InitEnv Nat where
  lockPoisoned := false
  client_session_init := Except.ok ([1, 2, 3], 5)
  subscribe_frame := Except.ok 0
  subscribe_cursor := Except.ok 1

/-- An init environment whose client mutex is poisoned. -/
def poisonedEnv : InitEnv Nat where
  lockPoisoned := true
  client_session_init := Except.ok (goodMeta, 5)
  subscribe_frame := Except.ok 0
  subscribe_cursor := Except.ok 1

/-- C1: `tick_frame` (and symmetrically `tick_cursor`) succeeds and changes
nothing when no session exists; with a session, when
`now + tick_period > last_heartbeat + timeout` it invokes fast-forward on
that channel (resetting that channel's heartbeat to `now` on success,
propagating the fast-forward error otherwise), and when the condition fails
it leaves the connection completely untouched. -/
theorem tick_deadline_spec {Chan : Type} (prim : QueuePrim Chan)
    (conn : LGMPConnection Chan) (tick_period : Nat) (now : Int) :
    (conn.session = none →
      conn.tick_frame prim tick_period now = (Except.ok (), conn) ∧
      conn.tick_cursor prim tick_period now = (Except.ok (), conn)) ∧
    (∀ s : LGMPSession Chan, conn.session = some s →
      (now + (tick_period : Int) >
          s.last_frame_heartbeat + (conn.opts.timeout : Int) →
        ∀ r s', s.fast_forward prim KVMFRChans.Frame now = (r, s') →
          conn.tick_frame prim tick_period now =
            (match r with
             | Except.ok _ =>
                 (Except.ok (),
                  { conn with
                    session := some { s' with last_frame_heartbeat := now } })
             | Except.error e =>
                 (Except.error e, { conn with session := some s' }))) ∧
      (¬ now + (tick_period : Int) >
          s.last_frame_heartbeat + (conn.opts.timeout : Int) →
        conn.tick_frame prim tick_period now = (Except.ok (), conn)) ∧
      (now + (tick_period : Int) >
          s.last_cursor_heartbeat + (conn.opts.timeout : Int) →
        ∀ r s', s.fast_forward prim KVMFRChans.Cursor now = (r, s') →
          conn.tick_cursor prim tick_period now =
            (match r with
             | Except.ok _ =>
                 (Except.ok (),
                  { conn with
                    session := some { s' with last_cursor_heartbeat := now } })
             | Except.error e =>
                 (Except.error e, { conn with session := some s' }))) ∧
      (¬ now + (tick_period : Int) >
          s.last_cursor_heartbeat + (conn.opts.timeout : Int) →
        conn.tick_cursor prim tick_period now = (Except.ok (), conn))) := by
  constructor
  · intro hnone
    constructor
    · simp [LGMPConnection.tick_frame, hnone]
    · simp [LGMPConnection.tick_cursor, hnone]
  · intro s hs
    refine ⟨?_, ?_, ?_, ?_⟩
    · intro hcond r s' hff
      simp only [LGMPConnection.tick_frame, hs]
      rw [if_pos hcond, hff]
      cases r <;> rfl
    · intro hcond
      simp only [LGMPConnection.tick_frame, hs]
      rw [if_neg hcond]
    · intro hcond r s' hff
      simp only [LGMPConnection.tick_cursor, hs]
      rw [if_pos hcond, hff]
      cases r <;> rfl
    · intro hcond
      simp only [LGMPConnection.tick_cursor, hs]
      rw [if_neg hcond]

/-- Evaluation of `tick_deadline_spec` on a concrete overdue session: with a
one-second timeout, heartbeat 2000 and `now = 3500`, a 1 ms tick
fast-forwards the (empty) frame channel and resets the heartbeat to 3500. -/
theorem tick_deadline_spec_witness :
    LGMPConnection.tick_frame emptyPrim sampleConn 1 3500 =
      (Except.ok (),
       { sampleConn with
         session := some { sampleSession with last_frame_heartbeat := 3500 } }) := by
  have h := ((tick_deadline_spec emptyPrim sampleConn 1 3500).2
      sampleSession rfl).1 (by decide) (Except.ok ())
      { sampleSession with last_frame_heartbeat := 3500 } rfl
  exact h

/-- C2: whenever the registration metadata has the wrong byte length, the
wrong magic prefix, or the wrong version, `init` fails with
`KVMFRVersionMismatch` carrying the expected version, and the connection —
in particular its `session` field — is left unchanged. -/
theorem init_version_mismatch {Chan : Type} (env : InitEnv Chan)
    (conn : LGMPConnection Chan) (now : Int) (udata : List Nat) (cid : Nat)
    (hlock : env.lockPoisoned = false)
    (hreg : env.client_session_init = Except.ok (udata, cid))
    (hbad : udata.length ≠ sizeOfKVMFR ∨
      kvmfrMagicOf udata ≠ KVMFR_MAGIC.take kvmfrMagicLen ∨
      kvmfrVersionOf udata ≠ KVMFR_VERSION) :
    conn.init env now =
      (Except.error (LGError.KVMFRVersionMismatch KVMFR_VERSION), conn) := by
  simp only [LGMPConnection.init, hlock, hreg, Bool.false_eq_true, if_false]
  by_cases hlen : udata.length = sizeOfKVMFR
  · have hrest : kvmfrMagicOf udata ≠ KVMFR_MAGIC.take kvmfrMagicLen ∨
        kvmfrVersionOf udata ≠ KVMFR_VERSION := by
      rcases hbad with h | h | h
      · exact absurd hlen h
      · exact Or.inl h
      · exact Or.inr h
    rw [if_neg (by simp [hlen]), if_pos hrest]
  · rw [if_pos hlen]

/-- Evaluation of `init_version_mismatch` on three-byte metadata: `init`
returns the version-mismatch error and keeps the connection session-free. -/
theorem init_version_mismatch_witness :
    LGMPConnection.init badMetaEnv noSessionConn 0 =
      (Except.error (LGError.KVMFRVersionMismatch KVMFR_VERSION),
       noSessionConn) :=
  init_version_mismatch badMetaEnv noSessionConn 0 [1, 2, 3] 5 rfl rfl
    (Or.inl (by decide))

/-- C3: with metadata of exactly the expected length carrying the expected
magic prefix and version, and with registration and both channel
subscriptions succeeding, `init` succeeds and installs a session whose frame
and cursor heartbeats are both `now - timeout`; that value makes the very
first tick with any positive tick period eligible to fast-forward. -/
theorem init_success_spec {Chan : Type} (env : InitEnv Chan)
    (conn : LGMPConnection Chan) (now : Int) (udata : List Nat) (cid : Nat)
    (f c : Chan)
    (hlock : env.lockPoisoned = false)
    (hreg : env.client_session_init = Except.ok (udata, cid))
    (hlen : udata.length = sizeOfKVMFR)
    (hmagic : kvmfrMagicOf udata = KVMFR_MAGIC.take kvmfrMagicLen)
    (hver : kvmfrVersionOf udata = KVMFR_VERSION)
    (hf : env.subscribe_frame = Except.ok f)
    (hc : env.subscribe_cursor = Except.ok c) :
    conn.init env now =
      (Except.ok (),
       { conn with
         session := some
           { frame_chan := f
             cursor_chan := c
             last_frame_heartbeat := now - (conn.opts.timeout : Int)
             last_cursor_heartbeat := now - (conn.opts.timeout : Int) } }) ∧
    (∀ tp : Nat, 0 < tp →
      now + (tp : Int) >
        (now - (conn.opts.timeout : Int)) + (conn.opts.timeout : Int)) := by
  constructor
  · simp only [LGMPConnection.init, hlock, hreg, Bool.false_eq_true, if_false,
      hf, hc]
    rw [if_neg (by simp [hlen]), if_neg (by simp [hmagic, hver])]
  · intro tp htp
    have : (0 : Int) < (tp : Int) := by exact_mod_cast htp
    omega

/-- Evaluation of `init_success_spec` on well-formed metadata at `now = 0`
with a 1000 ms timeout: both heartbeats of the installed session are
`-1000`. -/
theorem init_success_spec_witness :
    LGMPConnection.init goodMetaEnv noSessionConn 0 =
      (Except.ok (),
       { noSessionConn with
         session := some
           { frame_chan := 0
             cursor_chan := 1
             last_frame_heartbeat := -1000
             last_cursor_heartbeat := -1000 } }) := by
  have h := (init_success_spec goodMetaEnv noSessionConn 0 goodMeta 5 0 1
    rfl rfl (by decide) (by decide) (by decide) rfl rfl).1
  simpa using h

/-- C4: when the primitive reports queue-empty on the popped channel,
`get_frame_update` / `get_cursor_update` returns "no update" without error
and sets that channel's heartbeat to the call time; with no session, it
returns "no update" without error and without touching any state. -/
theorem get_update_empty_spec {Chan : Type} (prim : QueuePrim Chan)
    (conn : LGMPConnection Chan) (now : Int) :
    (conn.session = none →
      conn.get_frame_update prim now = (Except.ok none, conn) ∧
      conn.get_cursor_update prim now = (Except.ok none, conn)) ∧
    (∀ s : LGMPSession Chan, conn.session = some s →
      (prim.pop_in_place s.frame_chan =
          Except.error (LigError.InternalError Status.LGMPErrQueueEmpty) →
        conn.get_frame_update prim now =
          (Except.ok none,
           { conn with
             session := some { s with last_frame_heartbeat := now } })) ∧
      (prim.pop_in_place s.cursor_chan =
          Except.error (LigError.InternalError Status.LGMPErrQueueEmpty) →
        conn.get_cursor_update prim now =
          (Except.ok none,
           { conn with
             session := some { s with last_cursor_heartbeat := now } }))) := by
  constructor
  · intro hnone
    constructor
    · simp [LGMPConnection.get_frame_update, hnone]
    · simp [LGMPConnection.get_cursor_update, hnone]
  · intro s hs
    constructor
    · intro hpop
      simp [LGMPConnection.get_frame_update, hs, LGMPSession.pop_ref, hpop]
    · intro hpop
      simp [LGMPConnection.get_cursor_update, hs, LGMPSession.pop_ref, hpop]

/-- Evaluation of `get_update_empty_spec` on an always-empty primitive at
time 3000: the call reports no update and moves the frame heartbeat from
2000 to 3000. -/
theorem get_update_empty_spec_witness :
    LGMPConnection.get_frame_update emptyPrim sampleConn 3000 =
      (Except.ok none,
       { sampleConn with
         session := some { sampleSession with last_frame_heartbeat := 3000 } }) :=
  ((get_update_empty_spec emptyPrim sampleConn 3000).2 sampleSession rfl).1 rfl

/-- C5: `fast_forward` on a channel whose primitive reports queue-empty is
treated as success — it returns without error and refreshes that channel's
heartbeat to `now`; any primitive failure other than queue-empty propagates
as a communication error, leaving the session unchanged. -/
theorem fast_forward_empty_spec {Chan : Type} (prim : QueuePrim Chan)
    (s : LGMPSession Chan) (now : Int) :
    (prim.advance_to_last s.frame_chan =
        Except.error (LigError.InternalError Status.LGMPErrQueueEmpty) →
      s.fast_forward prim KVMFRChans.Frame now =
        (Except.ok (), { s with last_frame_heartbeat := now })) ∧
    (prim.advance_to_last s.cursor_chan =
        Except.error (LigError.InternalError Status.LGMPErrQueueEmpty) →
      s.fast_forward prim KVMFRChans.Cursor now =
        (Except.ok (), { s with last_cursor_heartbeat := now })) ∧
    (∀ e : LigError, e ≠ LigError.InternalError Status.LGMPErrQueueEmpty →
      (prim.advance_to_last s.frame_chan = Except.error e →
        s.fast_forward prim KVMFRChans.Frame now =
          (Except.error (LGError.LGMPCommunicationError e), s)) ∧
      (prim.advance_to_last s.cursor_chan = Except.error e →
        s.fast_forward prim KVMFRChans.Cursor now =
          (Except.error (LGError.LGMPCommunicationError e), s))) := by
  refine ⟨?_, ?_, ?_⟩
  · intro h
    simp [LGMPSession.fast_forward, h]
  · intro h
    simp [LGMPSession.fast_forward, h]
  · intro e he
    constructor
    · intro h
      simp only [LGMPSession.fast_forward, h]
    · intro h
      simp only [LGMPSession.fast_forward, h]

/-- Evaluation of `fast_forward_empty_spec`: on the always-empty primitive
fast-forward succeeds and refreshes the frame heartbeat, while on the
always-failing primitive it propagates the wrapped error. -/
theorem fast_forward_empty_spec_witness :
    LGMPSession.fast_forward emptyPrim sampleSession KVMFRChans.Frame 2500 =
      (Except.ok (), { sampleSession with last_frame_heartbeat := 2500 }) ∧
    LGMPSession.fast_forward failPrim sampleSession KVMFRChans.Frame 2500 =
      (Except.error (LGError.LGMPCommunicationError (LigError.otherVariant 3)),
       sampleSession) :=
  ⟨(fast_forward_empty_spec emptyPrim sampleSession 2500).1 rfl,
   (((fast_forward_empty_spec failPrim sampleSession 2500).2.2
      (LigError.otherVariant 3) (by decide)).1 rfl)⟩

/-- C7: a popped message shorter than the expected fixed structure size makes
the typed accessor return the channel-specific too-small error
(`FrameChannelMessageTooSmall` for `as_frame`,
`CursorChannelMessageTooSmall` for `as_ptr_msg`) and no view of the bytes;
the reinterpreted view is produced exactly when the length check passes. -/
theorem accessor_size_check_spec (hf : KVMFRFrameHandle)
    (hc : KVMFRCursorHandle) :
    (hf._msg_handle.mem.size < sizeOfKVMFRFrame →
      hf.as_frame = Except.error LGError.FrameChannelMessageTooSmall) ∧
    (sizeOfKVMFRFrame ≤ hf._msg_handle.mem.size →
      hf.as_frame = Except.ok hf._msg_handle.mem.mem) ∧
    (hc._msg_handle.mem.size < sizeOfKVMFRCursor →
      hc.as_ptr_msg = Except.error LGError.CursorChannelMessageTooSmall) ∧
    (sizeOfKVMFRCursor ≤ hc._msg_handle.mem.size →
      hc.as_ptr_msg = Except.ok hc._msg_handle.mem.mem) := by
  refine ⟨?_, ?_, ?_, ?_⟩
  · intro h
    simp [KVMFRFrameHandle.as_frame, h]
  · intro h
    simp [KVMFRFrameHandle.as_frame, Nat.not_lt_of_le h]
  · intro h
    simp [KVMFRCursorHandle.as_ptr_msg, h]
  · intro h
    simp [KVMFRCursorHandle.as_ptr_msg, Nat.not_lt_of_le h]

/-- Evaluation of `accessor_size_check_spec`: a 10-byte frame message is
rejected as too small, and a 100-byte one is viewed at its address. -/
theorem accessor_size_check_spec_witness :
    KVMFRFrameHandle.as_frame { _msg_handle := { mem := { size := 10, mem := 7 } } } =
      Except.error LGError.FrameChannelMessageTooSmall ∧
    KVMFRFrameHandle.as_frame { _msg_handle := { mem := { size := 100, mem := 7 } } } =
      Except.ok 7 :=
  ⟨(accessor_size_check_spec { _msg_handle := { mem := { size := 10, mem := 7 } } }
      { _msg_handle := { mem := { size := 10, mem := 7 } } }).1 (by decide),
   (accessor_size_check_spec { _msg_handle := { mem := { size := 100, mem := 7 } } }
      { _msg_handle := { mem := { size := 100, mem := 7 } } }).2.1 (by decide)⟩

/-- Both heartbeats of a session are at most time `t`. -/
def hbLe {Chan : Type} (s : LGMPSession Chan) (t : Int) : Prop :=
  s.last_frame_heartbeat ≤ t ∧ s.last_cursor_heartbeat ≤ t

/-- Both heartbeats move forward (or stay) from `s` to `s2`. -/
def hbMono {Chan : Type} (s s2 : LGMPSession Chan) : Prop :=
  s.last_frame_heartbeat ≤ s2.last_frame_heartbeat ∧
  s.last_cursor_heartbeat ≤ s2.last_cursor_heartbeat

/-- A `fast_forward` call at time `now` on a session whose heartbeats are at
most `now` moves heartbeats forward and keeps them at most `now`. -/
theorem fast_forward_hb {Chan : Type} (prim : QueuePrim Chan)
    (s : LGMPSession Chan) (ch : KVMFRChans) (now : Int) (h : hbLe s now) :
    hbMono s (s.fast_forward prim ch now).2 ∧
    hbLe (s.fast_forward prim ch now).2 now := by
  obtain ⟨h1, h2⟩ := h
  cases ch <;>
    (simp only [LGMPSession.fast_forward]
     split <;> (simp [hbMono, hbLe]; try omega))

/-- A `pop_ref` call at time `now` on a session whose heartbeats are at most
`now` moves heartbeats forward and keeps them at most `now`. -/
theorem pop_ref_hb {Chan : Type} (prim : QueuePrim Chan)
    (s : LGMPSession Chan) (ch : KVMFRChans) (now : Int) (h : hbLe s now) :
    hbMono s (s.pop_ref prim ch now).2 ∧
    hbLe (s.pop_ref prim ch now).2 now := by
  obtain ⟨h1, h2⟩ := h
  cases ch <;>
    (simp only [LGMPSession.pop_ref]
     split <;> (simp [hbMono, hbLe]; try omega))

/-- C6: heartbeat invariant.  A session installed by a successful `init` has
both heartbeats at most `now`; and every mutating operation (`tick_frame`,
`tick_cursor`, `get_frame_update`, `get_cursor_update`) run at time `now` on
a session whose heartbeats are at most `now` produces a session whose
heartbeats have not decreased and are still at most `now`. -/
theorem heartbeat_invariant_spec {Chan : Type} (prim : QueuePrim Chan)
    (env : InitEnv Chan) (conn : LGMPConnection Chan) (tick_period : Nat)
    (now : Int) :
    ((conn.init env now).1 = Except.ok () →
      ∀ s', ((conn.init env now).2).session = some s' → hbLe s' now) ∧
    (∀ s : LGMPSession Chan, conn.session = some s → hbLe s now →
      (∀ s', ((conn.tick_frame prim tick_period now).2).session = some s' →
        hbMono s s' ∧ hbLe s' now) ∧
      (∀ s', ((conn.tick_cursor prim tick_period now).2).session = some s' →
        hbMono s s' ∧ hbLe s' now) ∧
      (∀ s', ((conn.get_frame_update prim now).2).session = some s' →
        hbMono s s' ∧ hbLe s' now) ∧
      (∀ s', ((conn.get_cursor_update prim now).2).session = some s' →
        hbMono s s' ∧ hbLe s' now)) := by
  constructor
  · simp only [LGMPConnection.init]
    split
    · simp
    · split
      · simp
      · split
        · simp
        · split
          · simp
          · split
            · simp
            · split
              · simp
              · intro _ s' hs'
                simp only [Option.some.injEq] at hs'
                subst hs'
                constructor <;> simp [hbLe]
  · intro s hs h
    refine ⟨?_, ?_, ?_, ?_⟩
    · simp only [LGMPConnection.tick_frame, hs]
      split
      · have hff := fast_forward_hb prim s KVMFRChans.Frame now h
        rcases hF : s.fast_forward prim KVMFRChans.Frame now with ⟨r, t⟩
        rw [hF] at hff
        cases r <;>
          (intro s' hs'
           simp only [Option.some.injEq] at hs'
           subst hs'
           obtain ⟨⟨m1, m2⟩, l1, l2⟩ := hff
           simp only [hbMono, hbLe] at *
           simp_all
           try omega)
      · intro s' hs'
        rw [hs] at hs'
        simp only [Option.some.injEq] at hs'
        subst hs'
        exact ⟨⟨le_refl _, le_refl _⟩, h⟩
    · simp only [LGMPConnection.tick_cursor, hs]
      split
      · have hff := fast_forward_hb prim s KVMFRChans.Cursor now h
        rcases hF : s.fast_forward prim KVMFRChans.Cursor now with ⟨r, t⟩
        rw [hF] at hff
        cases r <;>
          (intro s' hs'
           simp only [Option.some.injEq] at hs'
           subst hs'
           obtain ⟨⟨m1, m2⟩, l1, l2⟩ := hff
           simp only [hbMono, hbLe] at *
           simp_all
           try omega)
      · intro s' hs'
        rw [hs] at hs'
        simp only [Option.some.injEq] at hs'
        subst hs'
        exact ⟨⟨le_refl _, le_refl _⟩, h⟩
    · simp only [LGMPConnection.get_frame_update, hs]
      have hpp := pop_ref_hb prim s KVMFRChans.Frame now h
      rcases hP : s.pop_ref prim KVMFRChans.Frame now with ⟨r, t⟩
      rw [hP] at hpp
      cases r <;>
        (intro s' hs'
         simp only [Option.some.injEq] at hs'
         subst hs'
         exact hpp)
    · simp only [LGMPConnection.get_cursor_update, hs]
      have hpp := pop_ref_hb prim s KVMFRChans.Cursor now h
      rcases hP : s.pop_ref prim KVMFRChans.Cursor now with ⟨r, t⟩
      rw [hP] at hpp
      cases r <;>
        (intro s' hs'
         simp only [Option.some.injEq] at hs'
         subst hs'
         exact hpp)

/-- Evaluation of `heartbeat_invariant_spec`: popping the always-empty frame
channel at time 2500 on the sample session (heartbeats 2000) yields a
session with non-decreased heartbeats still at most 2500. -/
theorem heartbeat_invariant_spec_witness :
    hbMono sampleSession { sampleSession with last_frame_heartbeat := 2500 } ∧
    hbLe { sampleSession with last_frame_heartbeat := 2500 } 2500 :=
  ((heartbeat_invariant_spec emptyPrim goodMetaEnv sampleConn 1 2500).2
    sampleSession rfl (by constructor <;> decide)).2.2.1
    { sampleSession with last_frame_heartbeat := 2500 } rfl

/-- C8: a `get_frame_update` / `get_cursor_update` call whose pop succeeds
(returning an update handle) leaves that channel's heartbeat exactly as it
was — only the subscription handle advances — so the heartbeat measures time
since the queue was last observed empty. -/
theorem pop_keeps_heartbeat_spec {Chan : Type} (prim : QueuePrim Chan)
    (conn : LGMPConnection Chan) (now : Int) (s : LGMPSession Chan)
    (hs : conn.session = some s) :
    (∀ m c, prim.pop_in_place s.frame_chan = Except.ok (m, c) →
      conn.get_frame_update prim now =
        (Except.ok (some { _msg_handle := m }),
         { conn with session := some { s with frame_chan := c } }) ∧
      ({ s with frame_chan := c } : LGMPSession Chan).last_frame_heartbeat =
        s.last_frame_heartbeat) ∧
    (∀ m c, prim.pop_in_place s.cursor_chan = Except.ok (m, c) →
      conn.get_cursor_update prim now =
        (Except.ok (some { _msg_handle := m }),
         { conn with session := some { s with cursor_chan := c } }) ∧
      ({ s with cursor_chan := c } : LGMPSession Chan).last_cursor_heartbeat =
        s.last_cursor_heartbeat) := by
  constructor
  · intro m c hpop
    constructor
    · simp [LGMPConnection.get_frame_update, hs, LGMPSession.pop_ref, hpop]
    · rfl
  · intro m c hpop
    constructor
    · simp [LGMPConnection.get_cursor_update, hs, LGMPSession.pop_ref, hpop]
    · rfl

/-- Evaluation of `pop_keeps_heartbeat_spec` on a primitive holding a
message: the frame heartbeat stays at 2000 while the handle advances. -/
theorem pop_keeps_heartbeat_spec_witness :
    LGMPConnection.get_frame_update msgPrim sampleConn 3000 =
      (Except.ok (some { _msg_handle := { mem := { size := 100, mem := 7 } } }),
       { sampleConn with
         session := some { sampleSession with frame_chan := 10 } }) :=
  (((pop_keeps_heartbeat_spec msgPrim sampleConn 3000 sampleSession rfl).1
    { mem := { size := 100, mem := 7 } } 10 rfl).1)

/-- C9: a poisoned shared queue-client session lock is surfaced as the
dedicated `LGMPClientLockPoisonError` kind — by the `From<PoisonError>`
conversion and by `init`, the one operation that acquires that lock — and is
distinct from the communication-error and every other error kind. -/
theorem lock_poison_spec {Chan : Type} (env : InitEnv Chan)
    (conn : LGMPConnection Chan) (now : Int) (p : PoisonError)
    (hp : env.lockPoisoned = true) :
    LGError.fromPoison p = LGError.LGMPClientLockPoisonError ∧
    conn.init env now =
      (Except.error LGError.LGMPClientLockPoisonError, conn) ∧
    (∀ e, LGError.fromPoison p ≠ LGError.LGMPCommunicationError e) ∧
    (∀ v, LGError.fromPoison p ≠ LGError.KVMFRVersionMismatch v) ∧
    LGError.fromPoison p ≠ LGError.FrameChannelMessageTooSmall ∧
    LGError.fromPoison p ≠ LGError.CursorChannelMessageTooSmall := by
  refine ⟨rfl, ?_, ?_, ?_, ?_, ?_⟩
  · simp [LGMPConnection.init, hp]
  · intro e
    simp [LGError.fromPoison]
  · intro v
    simp [LGError.fromPoison]
  · simp [LGError.fromPoison]
  · simp [LGError.fromPoison]

/-- Evaluation of `lock_poison_spec`: `init` against a poisoned-lock
environment returns exactly the lock-poison error and changes nothing. -/
theorem lock_poison_spec_witness :
    LGMPConnection.init poisonedEnv noSessionConn 0 =
      (Except.error LGError.LGMPClientLockPoisonError, noSessionConn) :=
  (lock_poison_spec poisonedEnv noSessionConn 0 { dummy := () } rfl).2.1

/-- A fast-forward of the frame channel never changes the cursor channel's
subscription handle or heartbeat. -/
theorem fast_forward_frame_only {Chan : Type} (prim : QueuePrim Chan)
    (s : LGMPSession Chan) (now : Int) :
    ((s.fast_forward prim KVMFRChans.Frame now).2).cursor_chan =
      s.cursor_chan ∧
    ((s.fast_forward prim KVMFRChans.Frame now).2).last_cursor_heartbeat =
      s.last_cursor_heartbeat := by
  simp only [LGMPSession.fast_forward]
  split <;> simp

/-- A fast-forward of the cursor channel never changes the frame channel's
subscription handle or heartbeat. -/
theorem fast_forward_cursor_only {Chan : Type} (prim : QueuePrim Chan)
    (s : LGMPSession Chan) (now : Int) :
    ((s.fast_forward prim KVMFRChans.Cursor now).2).frame_chan =
      s.frame_chan ∧
    ((s.fast_forward prim KVMFRChans.Cursor now).2).last_frame_heartbeat =
      s.last_frame_heartbeat := by
  simp only [LGMPSession.fast_forward]
  split <;> simp

/-- A pop from the frame channel never changes the cursor channel's
subscription handle or heartbeat. -/
theorem pop_ref_frame_only {Chan : Type} (prim : QueuePrim Chan)
    (s : LGMPSession Chan) (now : Int) :
    ((s.pop_ref prim KVMFRChans.Frame now).2).cursor_chan = s.cursor_chan ∧
    ((s.pop_ref prim KVMFRChans.Frame now).2).last_cursor_heartbeat =
      s.last_cursor_heartbeat := by
  simp only [LGMPSession.pop_ref]
  split <;> simp

/-- A pop from the cursor channel never changes the frame channel's
subscription handle or heartbeat. -/
theorem pop_ref_cursor_only {Chan : Type} (prim : QueuePrim Chan)
    (s : LGMPSession Chan) (now : Int) :
    ((s.pop_ref prim KVMFRChans.Cursor now).2).frame_chan = s.frame_chan ∧
    ((s.pop_ref prim KVMFRChans.Cursor now).2).last_frame_heartbeat =
      s.last_frame_heartbeat := by
  simp only [LGMPSession.pop_ref]
  split <;> simp

/-- C10: cross-channel isolation.  `tick_frame` and `get_frame_update`
leave the cursor channel's subscription handle and heartbeat unchanged, and
`tick_cursor` and `get_cursor_update` leave the frame channel's subscription
handle and heartbeat unchanged, whatever the primitive does. -/
theorem channel_isolation_spec {Chan : Type} (prim : QueuePrim Chan)
    (conn : LGMPConnection Chan) (tick_period : Nat) (now : Int)
    (s : LGMPSession Chan) (hs : conn.session = some s) :
    (∀ s', ((conn.tick_frame prim tick_period now).2).session = some s' →
      s'.cursor_chan = s.cursor_chan ∧
      s'.last_cursor_heartbeat = s.last_cursor_heartbeat) ∧
    (∀ s', ((conn.get_frame_update prim now).2).session = some s' →
      s'.cursor_chan = s.cursor_chan ∧
      s'.last_cursor_heartbeat = s.last_cursor_heartbeat) ∧
    (∀ s', ((conn.tick_cursor prim tick_period now).2).session = some s' →
      s'.frame_chan = s.frame_chan ∧
      s'.last_frame_heartbeat = s.last_frame_heartbeat) ∧
    (∀ s', ((conn.get_cursor_update prim now).2).session = some s' →
      s'.frame_chan = s.frame_chan ∧
      s'.last_frame_heartbeat = s.last_frame_heartbeat) := by
  refine ⟨?_, ?_, ?_, ?_⟩
  · simp only [LGMPConnection.tick_frame, hs]
    split
    · have hiso := fast_forward_frame_only prim s now
      rcases hF : s.fast_forward prim KVMFRChans.Frame now with ⟨r, t⟩
      rw [hF] at hiso
      cases r <;>
        (intro s' hs'
         simp only [Option.some.injEq] at hs'
         subst hs'
         simpa using hiso)
    · intro s' hs'
      rw [hs] at hs'
      simp only [Option.some.injEq] at hs'
      subst hs'
      exact ⟨rfl, rfl⟩
  · simp only [LGMPConnection.get_frame_update, hs]
    have hiso := pop_ref_frame_only prim s now
    rcases hP : s.pop_ref prim KVMFRChans.Frame now with ⟨r, t⟩
    rw [hP] at hiso
    cases r <;>
      (intro s' hs'
       simp only [Option.some.injEq] at hs'
       subst hs'
       simpa using hiso)
  · simp only [LGMPConnection.tick_cursor, hs]
    split
    · have hiso := fast_forward_cursor_only prim s now
      rcases hF : s.fast_forward prim KVMFRChans.Cursor now with ⟨r, t⟩
      rw [hF] at hiso
      cases r <;>
        (intro s' hs'
         simp only [Option.some.injEq] at hs'
         subst hs'
         simpa using hiso)
    · intro s' hs'
      rw [hs] at hs'
      simp only [Option.some.injEq] at hs'
      subst hs'
      exact ⟨rfl, rfl⟩
  · simp only [LGMPConnection.get_cursor_update, hs]
    have hiso := pop_ref_cursor_only prim s now
    rcases hP : s.pop_ref prim KVMFRChans.Cursor now with ⟨r, t⟩
    rw [hP] at hiso
    cases r <;>
      (intro s' hs'
       simp only [Option.some.injEq] at hs'
       subst hs'
       simpa using hiso)

/-- Evaluation of `channel_isolation_spec`: a fast-forwarding frame tick on
the sample connection leaves the cursor handle and cursor heartbeat of the
resulting session at their old values. -/
theorem channel_isolation_spec_witness :
    ({ sampleSession with last_frame_heartbeat := 3500 } :
        LGMPSession Nat).cursor_chan = sampleSession.cursor_chan ∧
    ({ sampleSession with last_frame_heartbeat := 3500 } :
        LGMPSession Nat).last_cursor_heartbeat =
      sampleSession.last_cursor_heartbeat :=
  (channel_isolation_spec emptyPrim sampleConn 1 3500 sampleSession rfl).1
    { sampleSession with last_frame_heartbeat := 3500 } (by decide)

end Lgmp
